import Mathlib

/-!
Shallow embedding of the PyP6Xer record/registry core
(src/xer_parser/model): Task decoding and TSV re-encoding
(classes/task.py), Calendar records and their primary-key lookup
(classes/calendar.py), ResourceCurve lookup (classes/rsrccurv.py),
ResourceCat decoding (classes/rsrcrcat.py), the Projects and
ActivityResources collections (projects.py, activityresources.py).

Python values are embedded as follows: `None` and the typed scalars a
record attribute can hold become the `PyVal` sum; Python floats are
modelled as exact rationals; a `dict` of row parameters becomes an
association list with first-match lookup; exceptions raised while
decoding become `Except PErr`.  An object's attribute set is an
association list from attribute name to value, so that an attribute
which was never assigned (as happens to the two external date fields
when their `try`-block fails) is genuinely missing, and reading it
models Python's `AttributeError`.
-/

deriving instance DecidableEq for Except

attribute [local semireducible] Rat.mul Rat.inv Rat.add Rat.sub Rat.ofScientific

namespace PyP6

/-- Errors raised (as Python exceptions) by the decoding code:
`ValueError` from `locale.atof`/`int` is `malformedNumber`,
`ValueError` from `datetime.strptime` is `malformedDate`,
`AttributeError` from reading a missing attribute (including
`None.day_hr_cnt`) is `attributeError`. -/
inductive PErr where
  | malformedNumber
  | malformedDate
  | attributeError
  | typeError
  deriving DecidableEq, Repr

/-- A parsed `datetime` (down to the minute, the precision used by the
fixed pattern `"%Y-%m-%d %H:%M"`). -/
structure PDate where
  year : Nat
  month : Nat
  day : Nat
  hour : Nat
  minute : Nat
  deriving DecidableEq, Repr

/-- Leap-year rule used by `datetime` date validation. -/
def isLeap (y : Nat) : Bool :=
  (y % 4 == 0 && y % 100 != 0) || (y % 400 == 0)

/-- Number of days in a month, as validated by `datetime`. -/
def daysInMonth (y m : Nat) : Nat :=
  if m == 2 then (if isLeap y then 29 else 28)
  else if m == 4 || m == 6 || m == 9 || m == 11 then 30
  else 31

/-- Value of a digit string read most-significant first. -/
def digitsToNat (l : List Char) : Nat :=
  l.foldl (fun acc c => 10 * acc + (c.toNat - 48)) 0

/-- All characters are decimal digits. -/
def allDigits (l : List Char) : Bool :=
  l.all Char.isDigit

/-- `datetime.strptime(s, "%Y-%m-%d %H:%M")`, restricted to the
canonical zero-padded form of the pattern (4-digit year, 2-digit
month/day/hour/minute), with the field-range validation `strptime`
performs; any other string is a parse failure. -/
def parseDate (s : String) : Option PDate :=
  match s.toList with
  | [y1, y2, y3, y4, '-', m1, m2, '-', d1, d2, ' ', h1, h2, ':', n1, n2] =>
    if allDigits [y1, y2, y3, y4, m1, m2, d1, d2, h1, h2, n1, n2] then
      let y := digitsToNat [y1, y2, y3, y4]
      let mo := digitsToNat [m1, m2]
      let da := digitsToNat [d1, d2]
      let ho := digitsToNat [h1, h2]
      let mi := digitsToNat [n1, n2]
      if 1 ≤ y && 1 ≤ mo && mo ≤ 12 && 1 ≤ da && da ≤ daysInMonth y mo
          && ho ≤ 23 && mi ≤ 59 then
        some ⟨y, mo, da, ho, mi⟩
      else none
    else none
  | _ => none

/-- Zero-pad a number to two digits, as `%m`/`%d`/`%H`/`%M` format. -/
def pad2 (n : Nat) : String :=
  if n < 10 then "0" ++ toString n else toString n

/-- Zero-pad a number to four digits, as `%Y` format. -/
def pad4 (n : Nat) : String :=
  if n < 10 then "000" ++ toString n
  else if n < 100 then "00" ++ toString n
  else if n < 1000 then "0" ++ toString n
  else toString n

/-- `d.strftime("%Y-%m-%d %H:%M")`. -/
def pdateFormat (d : PDate) : String :=
  pad4 d.year ++ "-" ++ pad2 d.month ++ "-" ++ pad2 d.day ++ " "
    ++ pad2 d.hour ++ ":" ++ pad2 d.minute

/-- Characters stripped by Python `str.strip()`. -/
def isPySpace (c : Char) : Bool :=
  c == ' ' || c == '\t' || c == '\n' || c == '\r'
    || c.toNat == 11 || c.toNat == 12

/-- Python `s.strip()`. -/
def pyStrip (s : String) : String :=
  String.mk (((s.toList.dropWhile isPySpace).reverse.dropWhile isPySpace).reverse)

/-- Python `int(s)` on a plain (already stripped) integer numeral;
non-numeric content is a parse failure (`ValueError`). -/
def parseInt (s : String) : Option Int :=
  match s.toList with
  | '-' :: l => if !l.isEmpty && allDigits l then some (-(digitsToNat l : Int)) else none
  | '+' :: l => if !l.isEmpty && allDigits l then some ((digitsToNat l : Int)) else none
  | l => if !l.isEmpty && allDigits l then some ((digitsToNat l : Int)) else none

/-- Unsigned part of a decimal numeral: digits, with an optional
fractional part after a decimal point. -/
def parseUnsigned (l : List Char) : Option ℚ :=
  let ip := l.takeWhile Char.isDigit
  let rest := l.dropWhile Char.isDigit
  match rest with
  | [] => if ip.isEmpty then none else some ((digitsToNat ip : ℚ))
  | '.' :: fp =>
    if allDigits fp && !(ip.isEmpty && fp.isEmpty) then
      some ((digitsToNat (ip ++ fp) : ℚ) / (10 : ℚ) ^ fp.length)
    else none
  | _ => none

/-- `locale.atof(s)` in the default C locale, i.e. `float(s)` on a
plain decimal numeral; non-numeric content is a parse failure
(`ValueError`). -/
def pyAtof (s : String) : Option ℚ :=
  match s.toList with
  | '-' :: rest => (parseUnsigned rest).map (fun q => -q)
  | '+' :: rest => parseUnsigned rest
  | l => parseUnsigned l

/-- A Python scalar value held by a record attribute: `None`, an
`int`, a `float` (exact rational), a `str`, or a `datetime`. -/
inductive PyVal where
  | vNone
  | vInt (n : Int)
  | vRat (q : ℚ)
  | vStr (s : String)
  | vDate (d : PDate)
  deriving DecidableEq, Repr

/-- Python truthiness of a `PyVal`. -/
def pyTruthy : PyVal → Bool
  | .vNone => false
  | .vInt n => n != 0
  | .vRat q => q != 0
  | .vStr s => s != ""
  | .vDate _ => true

/-- The `params` dict of one data row: field name to raw cell text.
A key that is absent models a field the row did not carry at all;
a key mapped to `""` models a field present but blank (both are falsy
in the decoding conditions). -/
def Params := List (String × String)

/-- `params.get(k)`: `None` when the key is absent. -/
def pyGet (p : Params) (k : String) : Option String :=
  (p.find? (fun kv => kv.1 == k)).map (fun kv => kv.2)

/-- The decoding idiom a `Task.__init__` field assignment uses.  Each
constructor names one of the source expressions (quoted in
`storedDecode`). -/
inductive FieldKind where
  | kInt        -- int(v) if v else None
  | kIntStrip   -- int(v.strip()) if v else None
  | kFloat      -- locale.atof(v) if v else None
  | kFloatStrip -- locale.atof(v.strip()) if v else None
  | kFloatKey   -- locale.atof(v) if key in params else None
  | kEstWt      -- locale.atof(v.strip()) if key in params and v != "" else None
  | kRaw        -- v if v else None
  | kStr        -- v.strip() if v else None
  | kDate       -- datetime.strptime(v, fmt) if v else None
  | kDateStrip  -- datetime.strptime(v.strip(), fmt) if v else None
  | kRemain     -- locale.atof(v.strip()) if v else 0
  deriving DecidableEq, Repr

/-- Decode one raw cell (`params.get(name)`) the way the
corresponding `Task.__init__` assignment does.  `cell = none` is an
absent key, `cell = some ""` a present-but-blank field; both are falsy
for the `if params.get(...)` guards. -/
def storedDecode (k : FieldKind) (cell : Option String) : Except PErr PyVal :=
  match k with
  | .kInt =>
    match cell with
    | none => .ok .vNone
    | some s =>
      if s = "" then .ok .vNone
      else match parseInt s with
        | some n => .ok (.vInt n)
        | none => .error .malformedNumber
  | .kIntStrip =>
    match cell with
    | none => .ok .vNone
    | some s =>
      if s = "" then .ok .vNone
      else match parseInt (pyStrip s) with
        | some n => .ok (.vInt n)
        | none => .error .malformedNumber
  | .kFloat =>
    match cell with
    | none => .ok .vNone
    | some s =>
      if s = "" then .ok .vNone
      else match pyAtof s with
        | some q => .ok (.vRat q)
        | none => .error .malformedNumber
  | .kFloatStrip =>
    match cell with
    | none => .ok .vNone
    | some s =>
      if s = "" then .ok .vNone
      else match pyAtof (pyStrip s) with
        | some q => .ok (.vRat q)
        | none => .error .malformedNumber
  | .kFloatKey =>
    -- `locale.atof(params.get(key)) if key in params else None`:
    -- a present-but-blank cell is still fed to atof and raises.
    match cell with
    | none => .ok .vNone
    | some s =>
      match pyAtof s with
      | some q => .ok (.vRat q)
      | none => .error .malformedNumber
  | .kEstWt =>
    -- `... if key in params and params.get(key) != "" else None`
    match cell with
    | none => .ok .vNone
    | some s =>
      if s = "" then .ok .vNone
      else match pyAtof (pyStrip s) with
        | some q => .ok (.vRat q)
        | none => .error .malformedNumber
  | .kRaw =>
    match cell with
    | none => .ok .vNone
    | some s => if s = "" then .ok .vNone else .ok (.vStr s)
  | .kStr =>
    match cell with
    | none => .ok .vNone
    | some s => if s = "" then .ok .vNone else .ok (.vStr (pyStrip s))
  | .kDate =>
    match cell with
    | none => .ok .vNone
    | some s =>
      if s = "" then .ok .vNone
      else match parseDate s with
        | some d => .ok (.vDate d)
        | none => .error .malformedDate
  | .kDateStrip =>
    match cell with
    | none => .ok .vNone
    | some s =>
      if s = "" then .ok .vNone
      else match parseDate (pyStrip s) with
        | some d => .ok (.vDate d)
        | none => .error .malformedDate
  | .kRemain =>
    -- `locale.atof(v.strip()) if v else 0`: the blank fallback is the
    -- Python int 0, not None.
    match cell with
    | none => .ok (.vInt 0)
    | some s =>
      if s = "" then .ok (.vInt 0)
      else match pyAtof (pyStrip s) with
        | some q => .ok (.vRat q)
        | none => .error .malformedNumber

/-- The value a successful `storedDecode` yields (placeholder `vNone`
in the error case, which well-formedness rules out). -/
def decodedValue (k : FieldKind) (cell : Option String) : PyVal :=
  match storedDecode k cell with
  | .ok v => v
  | .error _ => .vNone

/-- Fields of `Task.__init__` assigned before the external-dates
`try` block, in source assignment order (which is also the
`get_tsv` emission order). -/
def preSchema : List (String × FieldKind) :=
  [("task_id", .kInt),
   ("proj_id", .kInt),
   ("wbs_id", .kInt),
   ("clndr_id", .kInt),
   ("phys_complete_pct", .kFloatKey),
   ("rev_fdbk_flag", .kRaw),
   ("est_wt", .kEstWt),
   ("lock_plan_flag", .kRaw),
   ("auto_compute_act_flag", .kRaw),
   ("complete_pct_type", .kStr),
   ("task_type", .kStr),
   ("duration_type", .kStr),
   ("status_code", .kStr),
   ("task_code", .kStr),
   ("task_name", .kStr),
   ("rsrc_id", .kIntStrip),
   ("total_float_hr_cnt", .kFloatStrip),
   ("free_float_hr_cnt", .kFloat),
   ("remain_drtn_hr_cnt", .kRemain),
   ("act_work_qty", .kFloat),
   ("remain_work_qty", .kFloat),
   ("target_work_qty", .kFloat),
   ("target_drtn_hr_cnt", .kFloatStrip),
   ("target_equip_qty", .kFloat),
   ("act_equip_qty", .kFloat),
   ("remain_equip_qty", .kFloat),
   ("cstr_date", .kDate),
   ("act_start_date", .kDate),
   ("act_end_date", .kDate),
   ("late_start_date", .kDate),
   ("late_end_date", .kDate),
   ("expect_end_date", .kDate),
   ("early_start_date", .kDate),
   ("early_end_date", .kDate),
   ("restart_date", .kDate),
   ("reend_date", .kDate),
   ("target_start_date", .kDate),
   ("target_end_date", .kDate),
   ("rem_late_start_date", .kDate),
   ("rem_late_end_date", .kDate),
   ("cstr_type", .kStr),
   ("priority_type", .kStr),
   ("suspend_date", .kDateStrip),
   ("resume_date", .kDateStrip),
   ("int_path", .kStr),
   ("int_path_order", .kStr),
   ("guid", .kStr),
   ("tmpl_guid", .kStr),
   ("cstr_date2", .kDate),
   ("cstr_type2", .kStr),
   ("driving_path_flag", .kRaw),
   ("act_this_per_work_qty", .kFloat),
   ("act_this_per_equip_qty", .kFloat)]

/-- The two lenient external date fields assigned inside the `try`
block, in assignment order. -/
def externalSchema : List (String × FieldKind) :=
  [("external_early_start_date", .kDateStrip),
   ("external_late_end_date", .kDate)]

/-- Fields assigned after the `try` block, in source order. -/
def postSchema : List (String × FieldKind) :=
  [("create_date", .kDate),
   ("update_date", .kDate),
   ("create_user", .kStr),
   ("update_user", .kStr),
   ("location_id", .kStr)]

/-- All declared Task fields in assignment (= `get_tsv`) order. -/
def declaredSchema : List (String × FieldKind) :=
  preSchema ++ externalSchema ++ postSchema

/-- Decode a run of field assignments; the first raised exception
aborts `__init__` (the Except short-circuits). -/
def decodeFields (p : Params) : List (String × FieldKind) → Except PErr (List (String × PyVal))
  | [] => .ok []
  | (n, k) :: rest =>
    match storedDecode k (pyGet p n) with
    | .error e => .error e
    | .ok v =>
      match decodeFields p rest with
      | .error e => .error e
      | .ok vs => .ok ((n, v) :: vs)

/-- The `try ... except BaseException: pass` block around the two
external date fields: the first assignment that raises ends the block,
leaving that attribute (and any later one) unassigned. -/
def decodeExternal (p : Params) : List (String × PyVal) :=
  match storedDecode .kDateStrip (pyGet p "external_early_start_date") with
  | .error _ => []
  | .ok ve =>
    match storedDecode .kDate (pyGet p "external_late_end_date") with
    | .error _ => [("external_early_start_date", ve)]
    | .ok vl => [("external_early_start_date", ve), ("external_late_end_date", vl)]

/-- A `Calendar` record (classes/calendar.py): the scalar fields set
by `Calendar.__init__`.  The decoded `working_days`/`working_hours`/
`exceptions` structures come from the external `CalendarData`
collaborator and are not referenced by any lookup or duration code,
so they are not carried here. -/
structure Calendar where
  clndr_id : Option Int
  default_flag : Option String
  clndr_name : Option String
  proj_id : Option String
  base_clndr_id : Option String
  last_chng_date : Option String
  clndr_type : Option String
  day_hr_cnt : Option ℚ
  week_hr_cnt : Option ℚ
  month_hr_cnt : Option ℚ
  year_hr_cnt : Option ℚ
  rsrc_private : Option String
  clndr_data : Option String
  deriving DecidableEq, Repr

/-- A `Calendar` with every field unset, as decoded from an all-blank
row. -/
def emptyCalendar : Calendar :=
  ⟨none, none, none, none, none, none, none, none, none, none, none, none, none⟩

/-- `Calendar.find_by_id(id)`:
`obj = list(filter(lambda x: x.clndr_id == id, Calendar.obj_list));
return obj[0] if obj else None`.  The registry list is
`Calendar.obj_list` in append order. -/
def calendarFindById (id : Option Int) (objList : List Calendar) : Option Calendar :=
  (objList.filter (fun x => x.clndr_id == id)).head?

/-- A `Project` record.

Modelled from the spec: classes/project.py is not under src (only its
container projects.py is); per the spec a Record carries a numeric,
nullable primary key, here `proj_id`, the field `Projects.find_by_id`
filters on. -/
structure Project where
  proj_id : Option Int
  deriving DecidableEq, Repr

/-- `Projects.find_by_id(id)`:
`obj = list(filter(lambda x: x.proj_id == id, self._projects))`, then
`obj[0]` when non-empty.  (On no match the source returns the empty
list itself, a falsy not-found; both outcomes are `none` here.) -/
def projectsFindById (id : Option Int) (projects : List Project) : Option Project :=
  (projects.filter (fun x => x.proj_id == id)).head?

/-- A `TaskRsrc` (resource-assignment) record.

Modelled from the spec: classes/taskrsrc.py is not under src (only its
container activityresources.py is); per the spec it carries the
numeric, nullable primary key `taskrsrc_id` and the foreign keys
`task_id` and `rsrc_id` that the ActivityResources lookups filter
on. -/
structure TaskRsrc where
  taskrsrc_id : Option Int
  task_id : Option Int
  rsrc_id : Option Int
  deriving DecidableEq, Repr

/-- `ActivityResources.find_by_id(id)`: first record of
`filter(lambda x: x.taskrsrc_id == id, self._taskrsrc)`, `None` when
there is none. -/
def activityResourcesFindById (id : Option Int) (taskrsrc : List TaskRsrc) : Option TaskRsrc :=
  (taskrsrc.filter (fun x => x.taskrsrc_id == id)).head?

/-- `ActivityResources.find_by_rsrc_id(id)`:
`list(filter(lambda x: x.rsrc_id == id, self._taskrsrc))`. -/
def findByRsrcId (id : Option Int) (taskrsrc : List TaskRsrc) : List TaskRsrc :=
  taskrsrc.filter (fun x => x.rsrc_id == id)

/-- Python truthiness of a nullable int, as used by the
`and x.rsrc_id` conjunct below. -/
def pyTruthyOptInt : Option Int → Bool
  | none => false
  | some n => n != 0

/-- `ActivityResources.find_by_activity_id(id)`:
`list(filter(lambda x: x.task_id == id and x.rsrc_id, self._taskrsrc))`
— note the extra truthiness test on `x.rsrc_id`. -/
def findByActivityId (id : Option Int) (taskrsrc : List TaskRsrc) : List TaskRsrc :=
  taskrsrc.filter (fun x => x.task_id == id && pyTruthyOptInt x.rsrc_id)

/-- A `ResourceCurve` record (classes/rsrccurv.py): `curv_id`,
`curv_name`, `default_flag`, and the 21 `pct_usage_i` floats (kept as
one list indexed 0..20). -/
structure ResourceCurve where
  curv_id : Option Int
  curv_name : Option String
  default_flag : Option String
  pct_usage : List (Option ℚ)
  deriving DecidableEq, Repr

/-- `ResourceCurve.find_by_id(id)`:
`next((x for x in cls.obj_list if x.curv_id == id), None)` — the first
matching record of the registry. -/
def resourceCurveFindById (id : Option Int) (objList : List ResourceCurve) : Option ResourceCurve :=
  objList.find? (fun x => x.curv_id == id)

/-- A decoded `Task` object: its attribute dictionary in assignment
order (an attribute the `try` block failed to assign is genuinely
absent) plus the `calendar` handle resolved at the end of
`__init__`.  The `data` back-reference and the constant
`logic_missing = False` play no part in any claim and are omitted. -/
structure TaskRec where
  attrs : List (String × PyVal)
  calendar : Option Calendar
  deriving DecidableEq, Repr

/-- Read attribute `n` of an attribute dictionary; `none` models
`AttributeError`. -/
def lookupAttr (attrs : List (String × PyVal)) (n : String) : Option PyVal :=
  (attrs.find? (fun kv => kv.1 == n)).map (fun kv => kv.2)

/-- `t.n` for a task object. -/
def attrGet (t : TaskRec) (n : String) : Option PyVal :=
  lookupAttr t.attrs n

/-- The `int` payload of an attribute value, `None` otherwise — the
shape `self.clndr_id` has when passed to `Calendar.find_by_id`. -/
def pyValOptInt : Option PyVal → Option Int
  | some (.vInt n) => some n
  | _ => none

/-- `Task.__init__(params, data)` (classes/task.py): decode every
field in source order (any uncaught exception aborts the
constructor), run the lenient external-dates block, then resolve
`self.calendar = Calendar.find_by_id(self.clndr_id)` against the
calendar registry. -/
def taskInit (p : Params) (calRegistry : List Calendar) : Except PErr TaskRec :=
  match decodeFields p preSchema with
  | .error e => .error e
  | .ok pre =>
    match decodeFields p postSchema with
    | .error e => .error e
    | .ok post =>
      let attrs := pre ++ decodeExternal p ++ post
      .ok ⟨attrs, calendarFindById (pyValOptInt (lookupAttr attrs "clndr_id")) calRegistry⟩

/-- `Task.duration` (classes/task.py):
`if self.target_drtn_hr_cnt:` (truthiness), then
`self.calendar.day_hr_cnt` — an `AttributeError` when `self.calendar`
is `None` — and `target / day_hr_cnt` when that count is truthy, else
`target / 8.0`; a falsy target yields `0.0`. -/
def taskDuration (t : TaskRec) : Except PErr ℚ :=
  match attrGet t "target_drtn_hr_cnt" with
  | none => .error .attributeError
  | some tv =>
    if pyTruthy tv then
      match t.calendar with
      | none => .error .attributeError
      | some c =>
        match tv with
        | .vRat q =>
          match c.day_hr_cnt with
          | some d => if d = 0 then .ok (q / 8) else .ok (q / d)
          | none => .ok (q / 8)
        | .vInt n =>
          match c.day_hr_cnt with
          | some d => if d = 0 then .ok ((n : ℚ) / 8) else .ok ((n : ℚ) / d)
          | none => .ok ((n : ℚ) / 8)
        | _ => .error .typeError  -- dividing a non-number raises TypeError
    else .ok 0

/-- Whether a field kind is emitted by `get_tsv` through
`strftime("%Y-%m-%d %H:%M")`. -/
def isDateKind : FieldKind → Bool
  | .kDate => true
  | .kDateStrip => true
  | _ => false

/-- How `get_tsv` renders one stored attribute value: date attributes
as `v.strftime(fmt) if v else None`, everything else verbatim. -/
def emitVal (dateField : Bool) (v : PyVal) : PyVal :=
  if dateField then
    match v with
    | .vDate d => .vStr (pdateFormat d)
    | _ => .vNone
  else v

/-- Emit the `get_tsv` cells for a run of fields; `none` when an
attribute read raises `AttributeError`. -/
def getTsvAux (t : TaskRec) : List (String × FieldKind) → Option (List PyVal)
  | [] => some []
  | (n, k) :: rest =>
    match attrGet t n with
    | none => none
    | some v =>
      match getTsvAux t rest with
      | none => none
      | some vs => some (emitVal (isDateKind k) v :: vs)

/-- `Task.get_tsv()` (classes/task.py): the `"%R"` tag followed by the
declared fields in source order, dates rendered through `strftime`.
`none` models the `AttributeError` raised when an external date
attribute was never assigned. -/
def taskGetTsv (t : TaskRec) : Option (List PyVal) :=
  match getTsvAux t declaredSchema with
  | none => none
  | some vs => some (.vStr "%R" :: vs)

/-- The scalar type the spec's schema assigns to a field. -/
inductive SpecTy where
  | sInt
  | sFloat
  | sStr
  | sDate
  deriving DecidableEq, Repr

/-- The spec type of each decoding kind. -/
def specTyOf : FieldKind → SpecTy
  | .kInt => .sInt
  | .kIntStrip => .sInt
  | .kFloat => .sFloat
  | .kFloatStrip => .sFloat
  | .kFloatKey => .sFloat
  | .kEstWt => .sFloat
  | .kRemain => .sFloat
  | .kRaw => .sStr
  | .kStr => .sStr
  | .kDate => .sDate
  | .kDateStrip => .sDate

/-- Modelled from the spec: the round-trip expectation for one cell —
"decoding a row then re-encoding its fields through an identity
formatter reproduces the original row's field values for every field
the schema declares, including fields that were blank in the source
(must re-emit as blank, not as a numeric zero or other default)".
A blank or absent cell re-emits as the unset value; a non-blank cell
re-emits its typed value (numbers as the parsed number, strings and
date texts verbatim). -/
def specCellValue (ty : SpecTy) (cell : Option String) : PyVal :=
  match cell with
  | none => .vNone
  | some s =>
    if s = "" then .vNone
    else
      match ty with
      | .sInt =>
        match parseInt s with
        | some n => .vInt n
        | none => .vNone
      | .sFloat =>
        match pyAtof s with
        | some q => .vRat q
        | none => .vNone
      | .sStr => .vStr s
      | .sDate => .vStr s

/-- Modelled from the spec: the whole expected `get_tsv` row under the
round-trip claim — the `"%R"` tag then, per declared field, the
`specCellValue` of its original cell. -/
def specExpectedRow (p : Params) : List PyVal :=
  .vStr "%R" :: declaredSchema.map (fun nk => specCellValue (specTyOf nk.2) (pyGet p nk.1))

/-- The cell expectation the source actually meets: identical to
`specCellValue` on every kind except `kRemain`
(`remain_drtn_hr_cnt`), whose blank/absent cells re-emit as the
Python int `0` rather than as blank. -/
def amendedCellValue (k : FieldKind) (cell : Option String) : PyVal :=
  match k with
  | .kRemain =>
    match cell with
    | none => .vInt 0
    | some s =>
      if s = "" then .vInt 0
      else
        match pyAtof s with
        | some q => .vRat q
        | none => .vNone
  | _ => specCellValue (specTyOf k) cell

/-- The expected `get_tsv` row after the one forced amendment. -/
def amendedExpectedRow (p : Params) : List PyVal :=
  .vStr "%R" :: declaredSchema.map (fun nk => amendedCellValue nk.2 (pyGet p nk.1))

/-- A raw cell is well-formed for its field kind: absent is fine;
blank is fine except for `phys_complete_pct`, whose decoder feeds a
present-but-blank cell to `atof` (which raises); a non-blank cell
must carry no surrounding whitespace and must parse at its declared
type, dates in the canonical zero-padded pattern (the pattern the
spec declares for the export format). -/
def wellFormedCell (k : FieldKind) (cell : Option String) : Bool :=
  match cell with
  | none => true
  | some s =>
    if s = "" then
      match k with
      | .kFloatKey => false
      | _ => true
    else
      pyStrip s == s &&
        match specTyOf k with
        | .sInt => (parseInt s).isSome
        | .sFloat => (pyAtof s).isSome
        | .sStr => true
        | .sDate =>
          match parseDate s with
          | some d => pdateFormat d == s
          | none => false

/-- Every declared cell of the row is well-formed. -/
def wellFormedRow (p : Params) : Bool :=
  declaredSchema.all (fun nk => wellFormedCell nk.2 (pyGet p nk.1))

/-- `ResourceCat.__init__` (classes/rsrcrcat.py): a single field
decoder, `int(params.get(key).strip()) if params.get(key) else None`. -/
def pyIntStripField (cell : Option String) : Except PErr (Option Int) :=
  match cell with
  | none => .ok none
  | some s =>
    if s = "" then .ok none
    else
      match parseInt (pyStrip s) with
      | some n => .ok (some n)
      | none => .error .malformedNumber

/-- A `ResourceCat` record (classes/rsrcrcat.py). -/
structure ResourceCat where
  rsrc_id : Option Int
  rsrc_catg_type_id : Option Int
  rsrc_catg_id : Option Int
  deriving DecidableEq, Repr

/-- `ResourceCat.__init__(params)`: `rsrc_id` from the `rsrc_id`
cell; then both `rsrc_catg_type_id` and `rsrc_catg_id` are decoded
from the same `rsrc_catg_type_id` cell (the source repeats the
identical expression, so both evaluate to the same value `b`). -/
def resourceCatInit (p : Params) : Except PErr ResourceCat :=
  match pyIntStripField (pyGet p "rsrc_id") with
  | .error e => .error e
  | .ok a =>
    match pyIntStripField (pyGet p "rsrc_catg_type_id") with
    | .error e => .error e
    | .ok b => .ok ⟨a, b, b⟩

/-- The `Projects` collection (projects.py): an insertion cursor and
the record list; `add` appends, `__iter__` returns `self` unchanged,
`__next__` consumes from `index`. -/
structure ProjectsColl where
  index : Nat
  projects : List Project
  deriving DecidableEq, Repr

/-- `Projects.__iter__`: `return self` (no reset of `self.index`). -/
def projectsIter (c : ProjectsColl) : ProjectsColl := c

/-- `Projects.__next__`: `StopIteration` (`none`) once `index` reaches
the record count, else the record at `index` with the cursor
advanced. -/
def projectsNext (c : ProjectsColl) : Option (Project × ProjectsColl) :=
  if h : c.index < c.projects.length then
    some (c.projects.get ⟨c.index, h⟩, ⟨c.index + 1, c.projects⟩)
  else none

/-- Run a `for` loop over the collection: keep calling `__next__`
(up to `fuel` times) until `StopIteration`, collecting the yielded
records and the collection's final state. -/
def projectsDrain : Nat → ProjectsColl → List Project × ProjectsColl
  | 0, c => ([], c)
  | fuel + 1, c =>
    match projectsNext c with
    | none => ([], c)
    | some (r, c2) =>
      let rc := projectsDrain fuel c2
      (r :: rc.1, rc.2)

/-- The `ActivityResources` collection (activityresources.py): same
cursor-based iteration protocol over the `_taskrsrc` list. -/
structure ActivityResourcesColl where
  index : Nat
  taskrsrc : List TaskRsrc
  deriving DecidableEq, Repr

/-- `ActivityResources.__iter__`: `return self`. -/
def activityResourcesIter (c : ActivityResourcesColl) : ActivityResourcesColl := c

/-- `ActivityResources.__next__`. -/
def activityResourcesNext (c : ActivityResourcesColl) : Option (TaskRsrc × ActivityResourcesColl) :=
  if h : c.index < c.taskrsrc.length then
    some (c.taskrsrc.get ⟨c.index, h⟩, ⟨c.index + 1, c.taskrsrc⟩)
  else none

/-- Run a `for` loop over an `ActivityResources` collection. -/
def activityResourcesDrain : Nat → ActivityResourcesColl → List TaskRsrc × ActivityResourcesColl
  | 0, c => ([], c)
  | fuel + 1, c =>
    match activityResourcesNext c with
    | none => ([], c)
    | some (r, c2) =>
      let rc := activityResourcesDrain fuel c2
      (r :: rc.1, rc.2)

/-- The first element of a filtered list is the first satisfying
element. -/
theorem head_filter_eq_find {α} (p : α → Bool) :
    ∀ l : List α, (l.filter p).head? = l.find? p := by
  intro l
  induction l with
  | nil => rfl
  | cons a t ih =>
    by_cases ha : p a = true
    · simp [List.filter_cons, List.find?_cons, ha]
    · simp only [Bool.not_eq_true] at ha
      simp [List.filter_cons, List.find?_cons, ha, ih]

/-- First-match characterisation of a filtered head: an element
satisfying the predicate, preceded only by non-satisfying elements,
is the result. -/
theorem filter_head_first {α} (p : α → Bool) :
    ∀ (pre : List α) (x : α) (post : List α), p x = true →
      (∀ y ∈ pre, p y = false) →
      ((pre ++ x :: post).filter p).head? = some x := by
  intro pre
  induction pre with
  | nil => intro x post hx _; simp [List.filter_cons, hx]
  | cons a t ih =>
    intro x post hx hpre
    have ha : p a = false := hpre a (by simp)
    simpa [List.filter_cons, ha] using
      ih x post hx (fun y hy => hpre y (by simp [hy]))

/-- With pairwise-distinct keys, the first (hence only) record whose
key equals a member's key is that member. -/
theorem filter_head_unique {α β} [BEq β] [LawfulBEq β] (f : α → β) :
    ∀ (l : List α) (r : α), l.Pairwise (fun a b => f a ≠ f b) → r ∈ l →
      (l.filter (fun x => f x == f r)).head? = some r := by
  intro l
  induction l with
  | nil => intro r _ hr; cases hr
  | cons a t ih =>
    intro r hpw hr
    obtain ⟨hhead, htail⟩ := List.pairwise_cons.mp hpw
    rcases List.mem_cons.mp hr with heq | hmem
    · subst heq
      simp [List.filter_cons]
    · have hne : (f a == f r) = false := by
        simp [beq_eq_false_iff_ne]
        exact hhead r hmem
      simp [List.filter_cons, hne, ih r htail hmem]

/-- A well-formed cell decodes without raising, and its `get_tsv`
rendering is the amended expected value (the spec's expected value on
every kind but `kRemain`). -/
theorem cell_wf (k : FieldKind) (cell : Option String)
    (h : wellFormedCell k cell = true) :
    storedDecode k cell = .ok (decodedValue k cell) ∧
      emitVal (isDateKind k) (decodedValue k cell) = amendedCellValue k cell := by
  cases cell with
  | none =>
    cases k <;>
      simp [storedDecode, decodedValue, emitVal, isDateKind, amendedCellValue,
        specCellValue, specTyOf]
  | some s =>
    by_cases hs : s = ""
    · subst hs
      cases k <;>
        simp_all [wellFormedCell, storedDecode, decodedValue, emitVal, isDateKind,
          amendedCellValue, specCellValue, specTyOf]
    · cases k with
      | kInt =>
        simp only [wellFormedCell, if_neg hs, specTyOf, Bool.and_eq_true, beq_iff_eq] at h
        obtain ⟨hstrip, hp⟩ := h
        obtain ⟨n, hn⟩ := Option.isSome_iff_exists.mp hp
        simp [storedDecode, decodedValue, hs, hn, emitVal, isDateKind,
          amendedCellValue, specCellValue, specTyOf]
      | kIntStrip =>
        simp only [wellFormedCell, if_neg hs, specTyOf, Bool.and_eq_true, beq_iff_eq] at h
        obtain ⟨hstrip, hp⟩ := h
        obtain ⟨n, hn⟩ := Option.isSome_iff_exists.mp hp
        simp [storedDecode, decodedValue, hs, hstrip, hn, emitVal, isDateKind,
          amendedCellValue, specCellValue, specTyOf]
      | kFloat =>
        simp only [wellFormedCell, if_neg hs, specTyOf, Bool.and_eq_true, beq_iff_eq] at h
        obtain ⟨hstrip, hp⟩ := h
        obtain ⟨q, hq⟩ := Option.isSome_iff_exists.mp hp
        simp [storedDecode, decodedValue, hs, hq, emitVal, isDateKind,
          amendedCellValue, specCellValue, specTyOf]
      | kFloatStrip =>
        simp only [wellFormedCell, if_neg hs, specTyOf, Bool.and_eq_true, beq_iff_eq] at h
        obtain ⟨hstrip, hp⟩ := h
        obtain ⟨q, hq⟩ := Option.isSome_iff_exists.mp hp
        simp [storedDecode, decodedValue, hs, hstrip, hq, emitVal, isDateKind,
          amendedCellValue, specCellValue, specTyOf]
      | kFloatKey =>
        simp only [wellFormedCell, if_neg hs, specTyOf, Bool.and_eq_true, beq_iff_eq] at h
        obtain ⟨hstrip, hp⟩ := h
        obtain ⟨q, hq⟩ := Option.isSome_iff_exists.mp hp
        simp [storedDecode, decodedValue, hs, hq, emitVal, isDateKind,
          amendedCellValue, specCellValue, specTyOf]
      | kEstWt =>
        simp only [wellFormedCell, if_neg hs, specTyOf, Bool.and_eq_true, beq_iff_eq] at h
        obtain ⟨hstrip, hp⟩ := h
        obtain ⟨q, hq⟩ := Option.isSome_iff_exists.mp hp
        simp [storedDecode, decodedValue, hs, hstrip, hq, emitVal, isDateKind,
          amendedCellValue, specCellValue, specTyOf]
      | kRaw =>
        simp [storedDecode, decodedValue, hs, emitVal, isDateKind,
          amendedCellValue, specCellValue, specTyOf]
      | kStr =>
        simp only [wellFormedCell, if_neg hs, specTyOf, Bool.and_eq_true, beq_iff_eq] at h
        obtain ⟨hstrip, -⟩ := h
        simp [storedDecode, decodedValue, hs, hstrip, emitVal, isDateKind,
          amendedCellValue, specCellValue, specTyOf]
      | kDate =>
        simp only [wellFormedCell, if_neg hs, specTyOf, Bool.and_eq_true, beq_iff_eq] at h
        obtain ⟨hstrip, hp⟩ := h
        cases hd : parseDate s with
        | none => rw [hd] at hp; cases hp
        | some d =>
          rw [hd] at hp
          have hfmt : pdateFormat d = s := by simpa using hp
          simp [storedDecode, decodedValue, hs, hd, emitVal, isDateKind,
            amendedCellValue, specCellValue, specTyOf, hfmt]
      | kDateStrip =>
        simp only [wellFormedCell, if_neg hs, specTyOf, Bool.and_eq_true, beq_iff_eq] at h
        obtain ⟨hstrip, hp⟩ := h
        cases hd : parseDate s with
        | none => rw [hd] at hp; cases hp
        | some d =>
          rw [hd] at hp
          have hfmt : pdateFormat d = s := by simpa using hp
          simp [storedDecode, decodedValue, hs, hstrip, hd, emitVal, isDateKind,
            amendedCellValue, specCellValue, specTyOf, hfmt]
      | kRemain =>
        simp only [wellFormedCell, if_neg hs, specTyOf, Bool.and_eq_true, beq_iff_eq] at h
        obtain ⟨hstrip, hp⟩ := h
        obtain ⟨q, hq⟩ := Option.isSome_iff_exists.mp hp
        simp [storedDecode, decodedValue, hs, hstrip, hq, emitVal, isDateKind,
          amendedCellValue, specCellValue, specTyOf]

/-- A run of well-formed fields decodes to the list of its decoded
values. -/
theorem decodeFields_wf (p : Params) :
    ∀ schema : List (String × FieldKind),
      (∀ nk ∈ schema, wellFormedCell nk.2 (pyGet p nk.1) = true) →
      decodeFields p schema =
        .ok (schema.map fun nk => (nk.1, decodedValue nk.2 (pyGet p nk.1))) := by
  intro schema
  induction schema with
  | nil => intro _; rfl
  | cons nk rest ih =>
    intro hwf
    obtain ⟨n, k⟩ := nk
    have h1 := (cell_wf k (pyGet p n) (hwf (n, k) (by simp))).1
    have h2 := ih (fun x hx => hwf x (by simp [hx]))
    simp [decodeFields, h1, h2]

/-- Whenever a run of fields decodes successfully, the result is the
list of its decoded values. -/
theorem decodeFields_ok_shape (p : Params) :
    ∀ (schema : List (String × FieldKind)) (l : List (String × PyVal)),
      decodeFields p schema = .ok l →
      l = schema.map fun nk => (nk.1, decodedValue nk.2 (pyGet p nk.1)) := by
  intro schema
  induction schema with
  | nil => intro l h; cases h; rfl
  | cons nk rest ih =>
    intro l h
    obtain ⟨n, k⟩ := nk
    cases hv : storedDecode k (pyGet p n) with
    | error e => rw [decodeFields, hv] at h; cases h
    | ok v =>
      cases hrest : decodeFields p rest with
      | error e => rw [decodeFields, hv, hrest] at h; cases h
      | ok vs =>
        rw [decodeFields, hv, hrest] at h
        cases h
        have hdv : decodedValue k (pyGet p n) = v := by simp [decodedValue, hv]
        simp [hdv, ih vs hrest]

/-- A field whose cell raises, preceded by well-formed fields, aborts
the whole run with that error. -/
theorem decodeFields_append_error (p : Params) (e : PErr) :
    ∀ (s1 : List (String × FieldKind)) (n : String) (k : FieldKind)
      (s2 : List (String × FieldKind)),
      (∀ nk ∈ s1, wellFormedCell nk.2 (pyGet p nk.1) = true) →
      storedDecode k (pyGet p n) = .error e →
      decodeFields p (s1 ++ (n, k) :: s2) = .error e := by
  intro s1
  induction s1 with
  | nil => intro n k s2 _ he; simp [decodeFields, he]
  | cons nk rest ih =>
    intro n k s2 hwf he
    obtain ⟨m, j⟩ := nk
    have h1 := (cell_wf j (pyGet p m) (hwf (m, j) (by simp))).1
    have h2 := ih n k s2 (fun x hx => hwf x (by simp [hx])) he
    simp [decodeFields, h1, h2]

/-- Looking an entry up in an attribute dictionary built over a
schema with distinct names finds that entry's value. -/
theorem lookupAttr_map (g : String × FieldKind → PyVal) :
    ∀ (schema : List (String × FieldKind)) (n : String) (k : FieldKind),
      (schema.map Prod.fst).Nodup → (n, k) ∈ schema →
      lookupAttr (schema.map fun nk => (nk.1, g nk)) n = some (g (n, k)) := by
  intro schema
  induction schema with
  | nil => intro n k _ hm; cases hm
  | cons nk rest ih =>
    intro n k hnd hm
    obtain ⟨m, j⟩ := nk
    rw [List.map_cons, List.nodup_cons] at hnd
    obtain ⟨hnotin, hndrest⟩ := hnd
    rcases List.mem_cons.mp hm with heq | hmem
    · cases heq
      simp [lookupAttr, List.find?_cons]
    · have hne : (m == n) = false := by
        have : n ∈ rest.map Prod.fst := List.mem_map.mpr ⟨(n, k), hmem, rfl⟩
        simp only [beq_eq_false_iff_ne]
        intro hcontra
        exact hnotin (hcontra ▸ this)
      simp only [List.map_cons, lookupAttr, List.find?_cons, hne]
      exact ih n k hndrest hmem

/-- Looking up a name that no attribute carries raises
`AttributeError`. -/
theorem lookupAttr_not_mem :
    ∀ (attrs : List (String × PyVal)) (n : String),
      (∀ kv ∈ attrs, kv.1 ≠ n) → lookupAttr attrs n = none := by
  intro attrs n h
  have hf : attrs.find? (fun kv => kv.1 == n) = none := by
    rw [List.find?_eq_none]
    intro kv hkv
    simp [h kv hkv]
  simp [lookupAttr, hf]

/-- Looking up a name found in the left part of an appended
dictionary ignores the right part. -/
theorem lookupAttr_append_left :
    ∀ (a b : List (String × PyVal)) (n : String) (v : PyVal),
      lookupAttr a n = some v → lookupAttr (a ++ b) n = some v := by
  intro a
  induction a with
  | nil => intro b n v h; cases h
  | cons kv rest ih =>
    intro b n v h
    by_cases hk : (kv.1 == n) = true
    · simp only [lookupAttr, List.find?_cons, hk, if_true] at h
      simp only [lookupAttr, List.cons_append, List.find?_cons, hk, if_true]
      exact h
    · simp only [Bool.not_eq_true] at hk
      simp only [lookupAttr, List.find?_cons, hk, Bool.false_eq_true, if_false] at h
      simp only [lookupAttr, List.cons_append, List.find?_cons, hk,
        Bool.false_eq_true, if_false]
      exact ih b n v h

/-- Emitting over fields whose attributes are all present yields the
per-field renderings. -/
theorem getTsvAux_all (t : TaskRec) (v : String × FieldKind → PyVal) :
    ∀ fields : List (String × FieldKind),
      (∀ nk ∈ fields, attrGet t nk.1 = some (v nk)) →
      getTsvAux t fields =
        some (fields.map fun nk => emitVal (isDateKind nk.2) (v nk)) := by
  intro fields
  induction fields with
  | nil => intro _; rfl
  | cons nk rest ih =>
    intro h
    obtain ⟨n, k⟩ := nk
    have h1 := h (n, k) (by simp)
    have h2 := ih (fun x hx => h x (by simp [hx]))
    simp [getTsvAux, h1, h2]

/-- A single missing attribute makes `get_tsv` raise. -/
theorem getTsvAux_none (t : TaskRec) :
    ∀ (fields : List (String × FieldKind)) (n : String) (k : FieldKind),
      (n, k) ∈ fields → attrGet t n = none → getTsvAux t fields = none := by
  intro fields
  induction fields with
  | nil => intro n k hm _; cases hm
  | cons nk rest ih =>
    intro n k hm hn
    obtain ⟨m, j⟩ := nk
    rcases List.mem_cons.mp hm with heq | hmem
    · cases heq
      simp [getTsvAux, hn]
    · cases ha : attrGet t m with
      | none => simp [getTsvAux, ha]
      | some w => simp [getTsvAux, ha, ih n k hmem hn]

/-- The attribute dictionary a fully well-formed row decodes to. -/
def decodedAttrs (p : Params) : List (String × PyVal) :=
  declaredSchema.map fun nk => (nk.1, decodedValue nk.2 (pyGet p nk.1))

/-- Names of the declared Task fields are pairwise distinct. -/
theorem declaredNames_nodup : (declaredSchema.map Prod.fst).Nodup := by
  decide

/-- Both external cells well-formed: the `try` block assigns both
attributes. -/
theorem decodeExternal_wf (p : Params)
    (h1 : wellFormedCell .kDateStrip (pyGet p "external_early_start_date") = true)
    (h2 : wellFormedCell .kDate (pyGet p "external_late_end_date") = true) :
    decodeExternal p =
      externalSchema.map fun nk => (nk.1, decodedValue nk.2 (pyGet p nk.1)) := by
  have e1 := (cell_wf _ _ h1).1
  have e2 := (cell_wf _ _ h2).1
  simp [decodeExternal, e1, e2, externalSchema]

/-- A well-formed row makes `Task.__init__` succeed with the decoded
attribute dictionary and the calendar resolved from `clndr_id`. -/
theorem taskInit_wf (p : Params) (cals : List Calendar)
    (h : wellFormedRow p = true) :
    taskInit p cals =
      .ok ⟨decodedAttrs p,
        calendarFindById (pyValOptInt (lookupAttr (decodedAttrs p) "clndr_id")) cals⟩ := by
  have hall : ∀ nk ∈ declaredSchema, wellFormedCell nk.2 (pyGet p nk.1) = true := by
    intro nk hnk
    exact List.all_eq_true.mp h nk hnk
  have hpre := decodeFields_wf p preSchema
    (fun nk hnk => hall nk (by simp [declaredSchema, hnk]))
  have hpost := decodeFields_wf p postSchema
    (fun nk hnk => hall nk (by simp [declaredSchema, hnk]))
  have hext := decodeExternal_wf p
    (hall ("external_early_start_date", .kDateStrip)
      (by simp [declaredSchema, externalSchema]))
    (hall ("external_late_end_date", .kDate)
      (by simp [declaredSchema, externalSchema]))
  simp only [taskInit, hpre, hpost, hext]
  simp [decodedAttrs, declaredSchema, List.map_append]

/-- Whenever `Task.__init__` succeeds, the resolved calendar is
`Calendar.find_by_id` applied to the decoded `clndr_id` cell. -/
theorem taskInit_clndr (p : Params) (cals : List Calendar) (t : TaskRec)
    (h : taskInit p cals = .ok t) :
    t.calendar =
      calendarFindById (pyValOptInt (some (decodedValue .kInt (pyGet p "clndr_id")))) cals := by
  cases hpre : decodeFields p preSchema with
  | error e => rw [taskInit, hpre] at h; cases h
  | ok pre =>
    cases hpost : decodeFields p postSchema with
    | error e => rw [taskInit, hpre, hpost] at h; cases h
    | ok post =>
      rw [taskInit, hpre, hpost] at h
      cases h
      have hshape := decodeFields_ok_shape p preSchema pre hpre
      have hl : lookupAttr pre "clndr_id" =
          some (decodedValue .kInt (pyGet p "clndr_id")) := by
        rw [hshape]
        exact lookupAttr_map _ preSchema "clndr_id" .kInt (by decide) (by decide)
      have hfull : lookupAttr (pre ++ (decodeExternal p ++ post)) "clndr_id" =
          some (decodedValue .kInt (pyGet p "clndr_id")) :=
        lookupAttr_append_left _ _ _ _ hl
      simp [hfull]

/-- Exhausting the cursor: with enough fuel, iteration from index `i`
yields the records from `i` on, leaving the cursor at the end. -/
theorem projectsDrain_spec (l : List Project) :
    ∀ (fuel i : Nat), l.length ≤ i + fuel →
      projectsDrain fuel ⟨i, l⟩ = (l.drop i, ⟨max i l.length, l⟩) := by
  intro fuel
  induction fuel with
  | zero =>
    intro i hle
    simp only [Nat.add_zero] at hle
    simp [projectsDrain, List.drop_eq_nil_of_le hle, Nat.max_eq_left hle]
  | succ fuel ih =>
    intro i hle
    by_cases hi : i < l.length
    · have hnext : projectsNext ⟨i, l⟩ = some (l.get ⟨i, hi⟩, ⟨i + 1, l⟩) := by
        simp [projectsNext, hi]
      have hrec := ih (i + 1) (by omega)
      simp only [projectsDrain, hnext, hrec]
      refine Prod.ext ?_ ?_
      · show l.get ⟨i, hi⟩ :: l.drop (i + 1) = l.drop i
        exact List.get_cons_drop l ⟨i, hi⟩
      · show (⟨max (i + 1) l.length, l⟩ : ProjectsColl) = ⟨max i l.length, l⟩
        have : max (i + 1) l.length = max i l.length := by omega
        rw [this]
    · have hge : l.length ≤ i := Nat.le_of_not_lt hi
      have hnext : projectsNext ⟨i, l⟩ = none := by
        simp [projectsNext, hi]
      simp [projectsDrain, hnext, List.drop_eq_nil_of_le hge, Nat.max_eq_left hge]

/-- Same cursor-exhaustion fact for `ActivityResources`. -/
theorem activityResourcesDrain_spec (l : List TaskRsrc) :
    ∀ (fuel i : Nat), l.length ≤ i + fuel →
      activityResourcesDrain fuel ⟨i, l⟩ = (l.drop i, ⟨max i l.length, l⟩) := by
  intro fuel
  induction fuel with
  | zero =>
    intro i hle
    simp only [Nat.add_zero] at hle
    simp [activityResourcesDrain, List.drop_eq_nil_of_le hle, Nat.max_eq_left hle]
  | succ fuel ih =>
    intro i hle
    by_cases hi : i < l.length
    · have hnext : activityResourcesNext ⟨i, l⟩ = some (l.get ⟨i, hi⟩, ⟨i + 1, l⟩) := by
        simp [activityResourcesNext, hi]
      have hrec := ih (i + 1) (by omega)
      simp only [activityResourcesDrain, hnext, hrec]
      refine Prod.ext ?_ ?_
      · show l.get ⟨i, hi⟩ :: l.drop (i + 1) = l.drop i
        exact List.get_cons_drop l ⟨i, hi⟩
      · show (⟨max (i + 1) l.length, l⟩ : ActivityResourcesColl) = ⟨max i l.length, l⟩
        have : max (i + 1) l.length = max i l.length := by omega
        rw [this]
    · have hge : l.length ≤ i := Nat.le_of_not_lt hi
      have hnext : activityResourcesNext ⟨i, l⟩ = none := by
        simp [activityResourcesNext, hi]
      simp [activityResourcesDrain, hnext, List.drop_eq_nil_of_le hge,
        Nat.max_eq_left hge]

/-- C1: for every Task whose `target_drtn_hr_cnt` is set and whose
resolved calendar supplies a (non-null, non-zero) day-hour count, the
`duration` property equals `target_drtn_hr_cnt` divided by the
owning calendar's `day_hr_cnt` — the owning calendar's count, not a
global default, is the divisor whenever a calendar is resolved. -/
theorem c1_duration_uses_owning_calendar (p : Params) (cals : List Calendar)
    (t : TaskRec) (q d : ℚ) (c : Calendar)
    (h0 : taskInit p cals = .ok t)
    (h1 : attrGet t "target_drtn_hr_cnt" = some (.vRat q))
    (h2 : t.calendar = some c)
    (h3 : c.day_hr_cnt = some d)
    (h4 : d ≠ 0) :
    taskDuration t = .ok (q / d) := by
  by_cases hq : q = 0
  · subst hq
    simp [taskDuration, h1, pyTruthy, zero_div]
  · simp [taskDuration, h1, h2, h3, pyTruthy, hq, h4]

/-- The calendar with `clndr_id = 3` and `day_hr_cnt = 8` used by the
C1 witness; the spec's worked example. -/
def cal8 : Calendar :=
  { emptyCalendar with clndr_id := some 3, day_hr_cnt := some 8 }

/-- Row of the C1 witness: 16 target hours on calendar 3. -/
def c1Row : Params := [("clndr_id", "3"), ("target_drtn_hr_cnt", "16")]

/-- The decoded C1 witness task. -/
def c1Task : TaskRec := ((taskInit c1Row [cal8]).toOption).getD ⟨[], none⟩

/-- C1 witness: `target_drtn_hr_cnt = 16` with `day_hr_cnt = 8`
yields `duration == 2.0`. -/
theorem c1_duration_witness :
    taskDuration c1Task = .ok ((16 : ℚ) / 8) ∧ (16 : ℚ) / 8 = 2 :=
  ⟨c1_duration_uses_owning_calendar c1Row [cal8] c1Task 16 8 cal8
      (by decide) (by decide) (by decide) (by decide) (by decide),
    by norm_num⟩

/-- C2 (amended): for a Task with a set, non-zero `target_drtn_hr_cnt`,
the 8-hour fallback applies only when a calendar IS resolved but its
`day_hr_cnt` is unset or zero; when the calendar reference does not
resolve (`self.calendar` is `None`), reading `duration` raises
`AttributeError` instead of returning. -/
theorem c2_duration_fallback (p : Params) (cals : List Calendar)
    (t : TaskRec) (q : ℚ)
    (h0 : taskInit p cals = .ok t)
    (h1 : attrGet t "target_drtn_hr_cnt" = some (.vRat q))
    (h2 : q ≠ 0) :
    (∀ c : Calendar, t.calendar = some c →
        (c.day_hr_cnt = none ∨ c.day_hr_cnt = some 0) →
        taskDuration t = .ok (q / 8)) ∧
      (t.calendar = none → taskDuration t = .error .attributeError) := by
  constructor
  · intro c hc hd
    rcases hd with hd | hd <;> simp [taskDuration, h1, hc, hd, pyTruthy, h2]
  · intro hc
    simp [taskDuration, h1, hc, pyTruthy, h2]

/-- Row of the C2 counterexample: a target duration but no calendar
registry entry to resolve against. -/
def c2Row : Params := [("target_drtn_hr_cnt", "16")]

/-- C2 counterexample: with no resolvable calendar the decoded task's
`duration` raises `AttributeError` (`None.day_hr_cnt`) — it does not
fall back to 8 hours/day and does not return normally. -/
theorem c2_counterexample :
    (taskInit c2Row []).toOption.map taskDuration =
      some (.error .attributeError) := by
  decide

/-- Calendar 4 with no day-hour count, for the C2 witness. -/
def calNoDay : Calendar := { emptyCalendar with clndr_id := some 4 }

/-- Row of the C2 witness: target hours on the count-less calendar. -/
def c2WitRow : Params := [("clndr_id", "4"), ("target_drtn_hr_cnt", "16")]

/-- The decoded C2 witness task. -/
def c2Task : TaskRec := ((taskInit c2WitRow [calNoDay]).toOption).getD ⟨[], none⟩

/-- C2 witness: the resolved-but-countless calendar falls back to
8 hours/day without raising. -/
theorem c2_duration_fallback_witness :
    taskDuration c2Task = .ok ((16 : ℚ) / 8) ∧ (16 : ℚ) / 8 = 2 :=
  ⟨(c2_duration_fallback c2WitRow [calNoDay] c2Task 16
        (by decide) (by decide) (by decide)).1
      calNoDay (by decide) (Or.inl (by decide)),
    by norm_num⟩

/-- C5 (amended): `Task.__init__` always attempts calendar
resolution, even for an unset `clndr_id`; an unset key matches the
first registry Calendar whose own `clndr_id` is unset (a spurious
match), and yields not-found only when no registry calendar has an
unset id. -/
theorem c5_unset_key_resolution (p : Params) (cals : List Calendar) (t : TaskRec)
    (h0 : taskInit p cals = .ok t)
    (h1 : pyGet p "clndr_id" = none) :
    ((∀ c ∈ cals, c.clndr_id ≠ none) → t.calendar = none) ∧
      (∀ (pre : List Calendar) (c : Calendar) (post : List Calendar),
        cals = pre ++ c :: post → c.clndr_id = none →
        (∀ x ∈ pre, x.clndr_id ≠ none) → t.calendar = some c) := by
  have hc := taskInit_clndr p cals t h0
  rw [h1] at hc
  have hv : pyValOptInt (some (decodedValue .kInt none)) = none := by decide
  rw [hv] at hc
  constructor
  · intro hnone
    rw [hc]
    unfold calendarFindById
    have : cals.filter (fun x => x.clndr_id == none) = [] := by
      rw [List.filter_eq_nil]
      intro a ha
      simp [hnone a ha]
    simp [this]
  · intro pre c post hcals hcid hpre
    rw [hc, hcals]
    unfold calendarFindById
    refine filter_head_first _ pre c post (by simp [hcid]) ?_
    intro y hy
    simp only [beq_eq_false_iff_ne]
    exact hpre y hy

/-- Looking up in an appended dictionary tries the left part first. -/
theorem lookupAttr_append :
    ∀ (a b : List (String × PyVal)) (n : String),
      lookupAttr (a ++ b) n =
        match lookupAttr a n with
        | some v => some v
        | none => lookupAttr b n := by
  intro a
  induction a with
  | nil => intro b n; rfl
  | cons kv rest ih =>
    intro b n
    by_cases hk : (kv.1 == n) = true
    · simp only [lookupAttr, List.cons_append, List.find?_cons, hk, if_true]
      rfl
    · simp only [Bool.not_eq_true] at hk
      simp only [lookupAttr, List.cons_append, List.find?_cons, hk,
        Bool.false_eq_true, if_false]
      exact ih b n

/-- A schema-built dictionary has no entry for a name outside the
schema. -/
theorem lookupAttr_mapped_none (schema : List (String × FieldKind))
    (g : String × FieldKind → PyVal) (n : String)
    (h : ∀ nk ∈ schema, nk.1 ≠ n) :
    lookupAttr (schema.map fun nk => (nk.1, g nk)) n = none := by
  refine lookupAttr_not_mem _ _ ?_
  intro kv hkv
  obtain ⟨nk, hnk, rfl⟩ := List.mem_map.mp hkv
  exact h nk hnk

/-- C5 counterexample: a Task row with no `clndr_id` cell, against a
registry holding one Calendar whose own `clndr_id` is unset, resolves
to that Calendar — a spurious match instead of not-found. -/
theorem c5_counterexample :
    (taskInit [] [emptyCalendar]).toOption.map (fun t => t.calendar) =
      some (some emptyCalendar) := by
  decide

/-- The decoded C5 witness task. -/
def c5Task : TaskRec := ((taskInit [] [emptyCalendar]).toOption).getD ⟨[], none⟩

/-- C5 witness: the amended resolution rule evaluated on the
one-unset-calendar registry. -/
theorem c5_unset_key_resolution_witness :
    c5Task.calendar = some emptyCalendar :=
  (c5_unset_key_resolution [] [emptyCalendar] c5Task (by decide) (by decide)).2
    [] emptyCalendar [] rfl (by decide) (by simp)

/-- Row of the C3 counterexample: a decodable row whose
`remain_drtn_hr_cnt` cell is blank. -/
def c3Row : Params := [("task_id", "1"), ("remain_drtn_hr_cnt", "")]

/-- C3 counterexample: the row decodes, but the blank
`remain_drtn_hr_cnt` (declared field 18, TSV position 19) re-emits
through `get_tsv` as the numeric 0, while the spec's round-trip
expectation for that blank cell is the blank/unset value. -/
theorem c3_counterexample :
    ((taskInit c3Row []).toOption.bind taskGetTsv).bind (fun l => l.get? 19) =
        some (.vInt 0) ∧
      pyGet c3Row "remain_drtn_hr_cnt" = some "" ∧
      declaredSchema.get? 18 = some ("remain_drtn_hr_cnt", .kRemain) ∧
      (specExpectedRow c3Row).get? 19 = some .vNone := by
  decide

/-- C3 (amended): decoding a well-formed row and re-encoding through
`get_tsv` reproduces the expected value of every declared field
except `remain_drtn_hr_cnt`: that one field re-emits a blank source
cell as the numeric 0 (the `amendedCellValue` of its kind); for every
other field kind the amended expectation coincides with the spec's
blank-preserving expectation. -/
theorem c3_roundtrip_amended (p : Params) (cals : List Calendar) (t : TaskRec)
    (h1 : wellFormedRow p = true)
    (h2 : taskInit p cals = .ok t) :
    taskGetTsv t = some (amendedExpectedRow p) ∧
      ∀ k : FieldKind, k ≠ .kRemain → ∀ cell : Option String,
        amendedCellValue k cell = specCellValue (specTyOf k) cell := by
  have hall : ∀ nk ∈ declaredSchema, wellFormedCell nk.2 (pyGet p nk.1) = true := by
    intro nk hnk
    exact List.all_eq_true.mp h1 nk hnk
  have hinit := taskInit_wf p cals h1
  rw [h2] at hinit
  have ht : t = ⟨decodedAttrs p,
      calendarFindById (pyValOptInt (lookupAttr (decodedAttrs p) "clndr_id")) cals⟩ := by
    cases hinit
    rfl
  constructor
  · have hget : ∀ nk ∈ declaredSchema,
        attrGet t nk.1 = some (decodedValue nk.2 (pyGet p nk.1)) := by
      intro nk hnk
      rw [ht]
      show lookupAttr (decodedAttrs p) nk.1 = _
      unfold decodedAttrs
      have := lookupAttr_map
        (fun nk => decodedValue nk.2 (pyGet p nk.1)) declaredSchema nk.1 nk.2
        declaredNames_nodup (by simpa using hnk)
      simpa using this
    have haux := getTsvAux_all t
      (fun nk => decodedValue nk.2 (pyGet p nk.1)) declaredSchema hget
    have hmap : (declaredSchema.map fun nk =>
          emitVal (isDateKind nk.2) (decodedValue nk.2 (pyGet p nk.1))) =
        declaredSchema.map fun nk => amendedCellValue nk.2 (pyGet p nk.1) := by
      refine List.map_congr_left ?_
      intro nk hnk
      exact (cell_wf nk.2 (pyGet p nk.1) (hall nk hnk)).2
    rw [hmap] at haux
    simp [taskGetTsv, haux, amendedExpectedRow]
  · intro k hk cell
    cases k with
    | kRemain => exact absurd rfl hk
    | kInt => rfl
    | kIntStrip => rfl
    | kFloat => rfl
    | kFloatStrip => rfl
    | kFloatKey => rfl
    | kEstWt => rfl
    | kRaw => rfl
    | kStr => rfl
    | kDate => rfl
    | kDateStrip => rfl

/-- Row of the C3 witness: ints, strings, a date, and a set
`remain_drtn_hr_cnt`. -/
def c3WitRow : Params :=
  [("task_id", "1"), ("task_name", "Hello"),
   ("cstr_date", "2023-05-01 08:00"), ("remain_drtn_hr_cnt", "16.5")]

/-- The decoded C3 witness task. -/
def c3Task : TaskRec := ((taskInit c3WitRow []).toOption).getD ⟨[], none⟩

/-- C3 witness: the amended round-trip evaluated on a concrete
well-formed row. -/
theorem c3_roundtrip_amended_witness :
    taskGetTsv c3Task = some (amendedExpectedRow c3WitRow) :=
  (c3_roundtrip_amended c3WitRow [] c3Task (by decide) (by decide)).1

/-- C6 (amended): a value failing the fixed date pattern raises
`MalformedDate` in the strict field `cstr_date` and aborts
`__init__`; in the lenient fields the failure is swallowed and
`__init__` completes, but the failing field is left *unassigned*
(reading it raises `AttributeError`, and `get_tsv` raises) rather
than set to a defined unset value — and a failure on
`external_early_start_date` also leaves `external_late_end_date`
unassigned, while a failure on `external_late_end_date` alone keeps
the early field's decoded value. -/
theorem c6_lenient_vs_strict (p : Params) (cals : List Calendar) (s : String)
    (hs : s ≠ "") :
    ((∀ nk ∈ preSchema.take 26, wellFormedCell nk.2 (pyGet p nk.1) = true) →
      pyGet p "cstr_date" = some s → parseDate s = none →
      taskInit p cals = .error .malformedDate) ∧
    ((∀ nk ∈ preSchema, wellFormedCell nk.2 (pyGet p nk.1) = true) →
      (∀ nk ∈ postSchema, wellFormedCell nk.2 (pyGet p nk.1) = true) →
      pyGet p "external_early_start_date" = some s → parseDate (pyStrip s) = none →
      ∃ t, taskInit p cals = .ok t ∧
        attrGet t "external_early_start_date" = none ∧
        attrGet t "external_late_end_date" = none ∧
        taskGetTsv t = none) ∧
    ((∀ nk ∈ preSchema, wellFormedCell nk.2 (pyGet p nk.1) = true) →
      (∀ nk ∈ postSchema, wellFormedCell nk.2 (pyGet p nk.1) = true) →
      wellFormedCell .kDateStrip (pyGet p "external_early_start_date") = true →
      pyGet p "external_late_end_date" = some s → parseDate s = none →
      ∃ t, taskInit p cals = .ok t ∧
        attrGet t "external_early_start_date" =
          some (decodedValue .kDateStrip (pyGet p "external_early_start_date")) ∧
        attrGet t "external_late_end_date" = none ∧
        taskGetTsv t = none) := by
  have hne1 : (("external_early_start_date" : String) == "external_late_end_date") = false := by
    decide
  refine ⟨?_, ?_, ?_⟩
  · intro hwf hcell hbad
    have herr : storedDecode .kDate (pyGet p "cstr_date") = .error .malformedDate := by
      rw [hcell]
      simp [storedDecode, hs, hbad]
    have hsplit :
        preSchema = preSchema.take 26 ++ ("cstr_date", .kDate) :: preSchema.drop 27 := by
      decide
    have hfields := decodeFields_append_error p .malformedDate (preSchema.take 26)
      "cstr_date" .kDate (preSchema.drop 27) hwf herr
    simp only [taskInit]
    rw [hsplit, hfields]
  · intro hwfpre hwfpost hcell hbad
    have hpre := decodeFields_wf p preSchema hwfpre
    have hpost := decodeFields_wf p postSchema hwfpost
    have herr : storedDecode .kDateStrip (pyGet p "external_early_start_date") =
        .error .malformedDate := by
      rw [hcell]
      simp [storedDecode, hs, hbad]
    have hext : decodeExternal p = [] := by
      simp [decodeExternal, herr]
    obtain ⟨t, ht⟩ : ∃ t, taskInit p cals = .ok t := by
      simp only [taskInit, hpre, hpost]
      exact ⟨_, rfl⟩
    have hattrs :
        t.attrs = (preSchema.map fun nk => (nk.1, decodedValue nk.2 (pyGet p nk.1))) ++
          ((postSchema.map fun nk => (nk.1, decodedValue nk.2 (pyGet p nk.1)))) := by
      simp only [taskInit, hpre, hpost, hext] at ht
      injection ht with h
      rw [h.symm]
      rfl
    have hprenone : lookupAttr
        (preSchema.map fun nk => (nk.1, decodedValue nk.2 (pyGet p nk.1)))
        "external_early_start_date" = none :=
      lookupAttr_mapped_none _ _ _ (by decide)
    have hpostnone : lookupAttr
        (postSchema.map fun nk => (nk.1, decodedValue nk.2 (pyGet p nk.1)))
        "external_early_start_date" = none :=
      lookupAttr_mapped_none _ _ _ (by decide)
    have hprenone2 : lookupAttr
        (preSchema.map fun nk => (nk.1, decodedValue nk.2 (pyGet p nk.1)))
        "external_late_end_date" = none :=
      lookupAttr_mapped_none _ _ _ (by decide)
    have hpostnone2 : lookupAttr
        (postSchema.map fun nk => (nk.1, decodedValue nk.2 (pyGet p nk.1)))
        "external_late_end_date" = none :=
      lookupAttr_mapped_none _ _ _ (by decide)
    have hearly : attrGet t "external_early_start_date" = none := by
      rw [attrGet, hattrs, lookupAttr_append, hprenone, hpostnone]
    have hlate : attrGet t "external_late_end_date" = none := by
      rw [attrGet, hattrs, lookupAttr_append, hprenone2, hpostnone2]
    have htsv : taskGetTsv t = none := by
      have hmem : ("external_early_start_date", FieldKind.kDateStrip) ∈ declaredSchema := by
        decide
      have := getTsvAux_none t declaredSchema "external_early_start_date"
        .kDateStrip hmem hearly
      simp [taskGetTsv, this]
    exact ⟨t, ht, hearly, hlate, htsv⟩
  · intro hwfpre hwfpost hwfearly hcell hbad
    have hpre := decodeFields_wf p preSchema hwfpre
    have hpost := decodeFields_wf p postSchema hwfpost
    have hok := (cell_wf .kDateStrip (pyGet p "external_early_start_date") hwfearly).1
    have herr : storedDecode .kDate (pyGet p "external_late_end_date") =
        .error .malformedDate := by
      rw [hcell]
      simp [storedDecode, hs, hbad]
    have hext : decodeExternal p =
        [("external_early_start_date",
          decodedValue .kDateStrip (pyGet p "external_early_start_date"))] := by
      simp [decodeExternal, hok, herr]
    obtain ⟨t, ht⟩ : ∃ t, taskInit p cals = .ok t := by
      simp only [taskInit, hpre, hpost]
      exact ⟨_, rfl⟩
    have hattrs :
        t.attrs = (preSchema.map fun nk => (nk.1, decodedValue nk.2 (pyGet p nk.1))) ++
          (("external_early_start_date",
              decodedValue .kDateStrip (pyGet p "external_early_start_date")) ::
            (postSchema.map fun nk => (nk.1, decodedValue nk.2 (pyGet p nk.1)))) := by
      simp only [taskInit, hpre, hpost, hext] at ht
      injection ht with h
      rw [h.symm]
      simp
    have hprenone : lookupAttr
        (preSchema.map fun nk => (nk.1, decodedValue nk.2 (pyGet p nk.1)))
        "external_early_start_date" = none :=
      lookupAttr_mapped_none _ _ _ (by decide)
    have hprenone2 : lookupAttr
        (preSchema.map fun nk => (nk.1, decodedValue nk.2 (pyGet p nk.1)))
        "external_late_end_date" = none :=
      lookupAttr_mapped_none _ _ _ (by decide)
    have hpostnone2 : lookupAttr
        (postSchema.map fun nk => (nk.1, decodedValue nk.2 (pyGet p nk.1)))
        "external_late_end_date" = none :=
      lookupAttr_mapped_none _ _ _ (by decide)
    have hearly : attrGet t "external_early_start_date" =
        some (decodedValue .kDateStrip (pyGet p "external_early_start_date")) := by
      rw [attrGet, hattrs, lookupAttr_append, hprenone]
      simp [lookupAttr, List.find?_cons]
    have hlate : attrGet t "external_late_end_date" = none := by
      rw [attrGet, hattrs, lookupAttr_append, hprenone2]
      simp only [lookupAttr, List.find?_cons, hne1, Bool.false_eq_true, if_false]
      have := hpostnone2
      simp only [lookupAttr] at this
      exact this
    have htsv : taskGetTsv t = none := by
      have hmem : ("external_late_end_date", FieldKind.kDate) ∈ declaredSchema := by
        decide
      have := getTsvAux_none t declaredSchema "external_late_end_date" .kDate hmem hlate
      simp [taskGetTsv, this]
    exact ⟨t, ht, hearly, hlate, htsv⟩

/-- Row of the C6 counterexample: a malformed lenient date. -/
def c6Row : Params := [("external_early_start_date", "notadate")]

/-- C6 counterexample: the malformed lenient date is swallowed and
the record decodes (`__init__` returns), but both external date
attributes are left *unassigned* — reading either yields
`AttributeError` (not a defined unset value) and `get_tsv` raises —
contradicting the claim that both lenient fields end up in a defined
unset state. -/
theorem c6_counterexample :
    (taskInit c6Row []).toOption.map
        (fun t => (attrGet t "external_early_start_date",
          attrGet t "external_late_end_date", taskGetTsv t)) =
      some (none, none, none) := by
  decide

/-- Rows of the three C6 witness scenarios. -/
def c6RowStrict : Params := [("cstr_date", "nope")]

/-- Lenient-early witness row. -/
def c6RowEarly : Params := [("external_early_start_date", "nope")]

/-- Lenient-late witness row. -/
def c6RowLate : Params := [("external_late_end_date", "nope")]

/-- C6 witness: the three scenarios of the amended claim evaluated on
concrete rows carrying the malformed value "nope". -/
theorem c6_lenient_vs_strict_witness :
    taskInit c6RowStrict [] = .error .malformedDate ∧
      (∃ t, taskInit c6RowEarly [] = .ok t ∧
        attrGet t "external_early_start_date" = none ∧
        attrGet t "external_late_end_date" = none ∧
        taskGetTsv t = none) ∧
      (∃ t, taskInit c6RowLate [] = .ok t ∧
        attrGet t "external_early_start_date" =
          some (decodedValue .kDateStrip (pyGet c6RowLate "external_early_start_date")) ∧
        attrGet t "external_late_end_date" = none ∧
        taskGetTsv t = none) :=
  ⟨(c6_lenient_vs_strict c6RowStrict [] "nope" (by decide)).1
      (by decide) (by decide) (by decide),
    (c6_lenient_vs_strict c6RowEarly [] "nope" (by decide)).2.1
      (by decide) (by decide) (by decide) (by decide),
    (c6_lenient_vs_strict c6RowLate [] "nope" (by decide)).2.2
      (by decide) (by decide) (by decide) (by decide) (by decide)⟩

/-- C4: in a table whose records carry pairwise-distinct primary
keys, `find_by_id` applied to a member record's own key returns
exactly that record — for `Projects.find_by_id`,
`ActivityResources.find_by_id` and `Calendar.find_by_id`. -/
theorem c4_find_by_id_roundtrip :
    (∀ (l : List Project) (r : Project),
      l.Pairwise (fun a b => a.proj_id ≠ b.proj_id) → r ∈ l →
      projectsFindById r.proj_id l = some r) ∧
    (∀ (l : List TaskRsrc) (r : TaskRsrc),
      l.Pairwise (fun a b => a.taskrsrc_id ≠ b.taskrsrc_id) → r ∈ l →
      activityResourcesFindById r.taskrsrc_id l = some r) ∧
    (∀ (l : List Calendar) (r : Calendar),
      l.Pairwise (fun a b => a.clndr_id ≠ b.clndr_id) → r ∈ l →
      calendarFindById r.clndr_id l = some r) := by
  refine ⟨?_, ?_, ?_⟩ <;> intro l r hpw hr
  · exact filter_head_unique (fun x => x.proj_id) l r hpw hr
  · exact filter_head_unique (fun x => x.taskrsrc_id) l r hpw hr
  · exact filter_head_unique (fun x => x.clndr_id) l r hpw hr

/-- C4 witness records. -/
def c4Proj1 : Project := ⟨some 1⟩

/-- Second C4 witness project. -/
def c4Proj2 : Project := ⟨some 2⟩

/-- C4 witness assignment record. -/
def c4Trs1 : TaskRsrc := ⟨some 1, some 7, some 3⟩

/-- Second C4 witness assignment record. -/
def c4Trs2 : TaskRsrc := ⟨some 2, some 7, none⟩

/-- C4 witness calendars. -/
def c4Cal1 : Calendar := { emptyCalendar with clndr_id := some 10 }

/-- Second C4 witness calendar. -/
def c4Cal2 : Calendar := { emptyCalendar with clndr_id := some 11 }

/-- C4 witness: each lookup finds the member with its own key. -/
theorem c4_find_by_id_roundtrip_witness :
    projectsFindById c4Proj2.proj_id [c4Proj1, c4Proj2] = some c4Proj2 ∧
      activityResourcesFindById c4Trs2.taskrsrc_id [c4Trs1, c4Trs2] = some c4Trs2 ∧
      calendarFindById c4Cal1.clndr_id [c4Cal1, c4Cal2] = some c4Cal1 :=
  ⟨c4_find_by_id_roundtrip.1 [c4Proj1, c4Proj2] c4Proj2 (by decide) (by decide),
    c4_find_by_id_roundtrip.2.1 [c4Trs1, c4Trs2] c4Trs2 (by decide) (by decide),
    c4_find_by_id_roundtrip.2.2 [c4Cal1, c4Cal2] c4Cal1 (by decide) (by decide)⟩

/-- C7 (amended): adding a duplicate primary key is non-fatal (the
registries are plain append-only lists), but the EARLIER addition
wins: `find_by_id` returns the first record, in insertion order,
whose key matches — for the Calendar, ResourceCurve and
ActivityResources registries. -/
theorem c7_duplicate_key_policy :
    (∀ (id : Option Int) (pre : List Calendar) (c : Calendar) (post : List Calendar),
      c.clndr_id = id → (∀ x ∈ pre, x.clndr_id ≠ id) →
      calendarFindById id (pre ++ c :: post) = some c) ∧
    (∀ (id : Option Int) (pre : List ResourceCurve) (c : ResourceCurve)
        (post : List ResourceCurve),
      c.curv_id = id → (∀ x ∈ pre, x.curv_id ≠ id) →
      resourceCurveFindById id (pre ++ c :: post) = some c) ∧
    (∀ (id : Option Int) (pre : List TaskRsrc) (c : TaskRsrc) (post : List TaskRsrc),
      c.taskrsrc_id = id → (∀ x ∈ pre, x.taskrsrc_id ≠ id) →
      activityResourcesFindById id (pre ++ c :: post) = some c) := by
  refine ⟨?_, ?_, ?_⟩ <;> intro id pre c post hc hpre
  · refine filter_head_first _ pre c post (by simp [hc]) ?_
    intro y hy
    simp only [beq_eq_false_iff_ne]
    exact hpre y hy
  · rw [resourceCurveFindById, ← head_filter_eq_find]
    refine filter_head_first _ pre c post (by simp [hc]) ?_
    intro y hy
    simp only [beq_eq_false_iff_ne]
    exact hpre y hy
  · refine filter_head_first _ pre c post (by simp [hc]) ?_
    intro y hy
    simp only [beq_eq_false_iff_ne]
    exact hpre y hy

/-- First-added calendar of the C7 duplicate pair. -/
def c7CalFirst : Calendar :=
  { emptyCalendar with clndr_id := some 5, clndr_name := some "first" }

/-- Second-added calendar of the C7 duplicate pair (same primary
key, different name). -/
def c7CalSecond : Calendar :=
  { emptyCalendar with clndr_id := some 5, clndr_name := some "second" }

/-- C7 counterexample: with two distinct Calendars sharing
`clndr_id = 5` in the registry (first added first, per append order),
`find_by_id` returns the FIRST one, not the most recently added —
refuting last-write-wins. -/
theorem c7_counterexample :
    calendarFindById (some 5) [c7CalFirst, c7CalSecond] = some c7CalFirst ∧
      c7CalFirst ≠ c7CalSecond := by
  decide

/-- C7 witness resource curves with a duplicated key. -/
def c7CurvFirst : ResourceCurve := ⟨some 6, some "cf", none, []⟩

/-- The later duplicate curve. -/
def c7CurvSecond : ResourceCurve := ⟨some 6, some "cs", none, []⟩

/-- C7 witness assignment records with a duplicated key. -/
def c7TrsFirst : TaskRsrc := ⟨some 8, some 1, none⟩

/-- The later duplicate assignment record. -/
def c7TrsSecond : TaskRsrc := ⟨some 8, some 2, none⟩

/-- C7 witness: the first-write-wins rule evaluated on duplicate
pairs in all three registries. -/
theorem c7_duplicate_key_policy_witness :
    calendarFindById (some 5) [c7CalFirst, c7CalSecond] = some c7CalFirst ∧
      resourceCurveFindById (some 6) [c7CurvFirst, c7CurvSecond] = some c7CurvFirst ∧
      activityResourcesFindById (some 8) [c7TrsFirst, c7TrsSecond] = some c7TrsFirst :=
  ⟨c7_duplicate_key_policy.1 (some 5) [] c7CalFirst [c7CalSecond]
      (by decide) (by simp),
    c7_duplicate_key_policy.2.1 (some 6) [] c7CurvFirst [c7CurvSecond]
      (by decide) (by simp),
    c7_duplicate_key_policy.2.2 (some 8) [] c7TrsFirst [c7TrsSecond]
      (by decide) (by simp)⟩

/-- C8 (amended): `find_by_rsrc_id(id)` returns exactly the
insertion-ordered subsequence of records whose `rsrc_id` equals `id`;
`find_by_activity_id(id)`, however, returns the insertion-ordered
subsequence of records whose `task_id` equals `id` AND whose
`rsrc_id` is truthy — a matching record with an unset (or zero)
`rsrc_id` is omitted. -/
theorem c8_foreign_key_lookup :
    (∀ (id : Option Int) (l : List TaskRsrc),
      (findByRsrcId id l).Sublist l ∧
        ∀ r : TaskRsrc, r ∈ findByRsrcId id l ↔ r ∈ l ∧ r.rsrc_id = id) ∧
    (∀ (id : Option Int) (l : List TaskRsrc),
      (findByActivityId id l).Sublist l ∧
        ∀ r : TaskRsrc, r ∈ findByActivityId id l ↔
          r ∈ l ∧ r.task_id = id ∧ pyTruthyOptInt r.rsrc_id = true) := by
  constructor <;> intro id l
  · refine ⟨List.filter_sublist l, ?_⟩
    intro r
    simp [findByRsrcId, List.mem_filter]
  · refine ⟨List.filter_sublist l, ?_⟩
    intro r
    simp [findByActivityId, List.mem_filter, and_assoc]

/-- The C8 counterexample record: it belongs to activity 7 but has no
resource id. -/
def c8Rec : TaskRsrc := ⟨some 1, some 7, none⟩

/-- C8 counterexample: `find_by_activity_id(7)` omits the record
whose `task_id` equals 7 because its `rsrc_id` is unset — the result
is not the full matching subsequence the claim requires. -/
theorem c8_counterexample :
    findByActivityId (some 7) [c8Rec] = [] ∧ c8Rec.task_id = some 7 := by
  decide

/-- The C8 witness record, with a truthy resource id. -/
def c8WitRec : TaskRsrc := ⟨some 1, some 7, some 3⟩

/-- C8 witness: membership characterisations evaluated on a concrete
record present in both lookups. -/
theorem c8_foreign_key_lookup_witness :
    c8WitRec ∈ findByRsrcId (some 3) [c8WitRec] ∧
      c8WitRec ∈ findByActivityId (some 7) [c8WitRec] :=
  ⟨((c8_foreign_key_lookup.1 (some 3) [c8WitRec]).2 c8WitRec).mpr
      ⟨by simp, by decide⟩,
    ((c8_foreign_key_lookup.2 (some 7) [c8WitRec]).2 c8WitRec).mpr
      ⟨by simp, by decide, by decide⟩⟩

/-- C9: both `rsrc_catg_id` and `rsrc_catg_type_id` of a decoded
`ResourceCat` are decoded from the row's `rsrc_catg_type_id` cell, so
they are always equal, and the row's own `rsrc_catg_id` cell is never
stored: prepending any value for that key leaves the decoded record
unchanged. -/
theorem c9_resource_cat_ids (p : Params) (r : ResourceCat) (v : String)
    (h : resourceCatInit p = .ok r) :
    r.rsrc_catg_id = r.rsrc_catg_type_id ∧
      resourceCatInit (("rsrc_catg_id", v) :: p) = .ok r := by
  have g1 : pyGet (("rsrc_catg_id", v) :: p) "rsrc_id" = pyGet p "rsrc_id" := by
    have hne : (("rsrc_catg_id" : String) == "rsrc_id") = false := by decide
    simp [pyGet, List.find?_cons, hne]
  have g2 : pyGet (("rsrc_catg_id", v) :: p) "rsrc_catg_type_id" =
      pyGet p "rsrc_catg_type_id" := by
    have hne : (("rsrc_catg_id" : String) == "rsrc_catg_type_id") = false := by decide
    simp [pyGet, List.find?_cons, hne]
  cases ha : pyIntStripField (pyGet p "rsrc_id") with
  | error e => rw [resourceCatInit, ha] at h; cases h
  | ok a =>
    cases hb : pyIntStripField (pyGet p "rsrc_catg_type_id") with
    | error e => rw [resourceCatInit, ha, hb] at h; cases h
    | ok b =>
      rw [resourceCatInit, ha, hb] at h
      injection h with h2
      constructor
      · rw [← h2]
      · rw [resourceCatInit, g1, g2, ha, hb]
        show Except.ok (ResourceCat.mk a b b) = Except.ok r
        rw [h2]

/-- The C9 witness row: the source row's own category-id cell (4)
disagrees with its category-type cell (9). -/
def c9Row : Params :=
  [("rsrc_id", "1"), ("rsrc_catg_type_id", "9"), ("rsrc_catg_id", "4")]

/-- The decoded C9 witness record. -/
def c9Rec : ResourceCat := ((resourceCatInit c9Row).toOption).getD ⟨none, none, none⟩

/-- C9 witness: the two stored ids agree (both 9) and the row's own
category-id value 4 was never stored. -/
theorem c9_resource_cat_ids_witness :
    c9Rec.rsrc_catg_id = c9Rec.rsrc_catg_type_id ∧
      c9Rec.rsrc_catg_id = some 9 ∧ c9Rec.rsrc_catg_id ≠ some 4 :=
  ⟨(c9_resource_cat_ids c9Row c9Rec "x" (by decide)).1, by decide, by decide⟩

/-- C10: `Projects` and `ActivityResources` are one-shot iterables:
`__iter__` returns the collection itself without resetting the
cursor, so a full iteration over the `n` stored records leaves the
cursor at `n`, and every subsequent iteration yields nothing even
though the records are still stored. -/
theorem c10_one_shot_iteration :
    (∀ l : List Project,
      projectsDrain l.length (projectsIter ⟨0, l⟩) = (l, ⟨l.length, l⟩) ∧
        ∀ fuel : Nat,
          projectsDrain fuel (projectsIter ⟨l.length, l⟩) = ([], ⟨l.length, l⟩)) ∧
    (∀ l : List TaskRsrc,
      activityResourcesDrain l.length (activityResourcesIter ⟨0, l⟩) =
          (l, ⟨l.length, l⟩) ∧
        ∀ fuel : Nat,
          activityResourcesDrain fuel (activityResourcesIter ⟨l.length, l⟩) =
            ([], ⟨l.length, l⟩)) := by
  constructor <;> intro l <;> constructor
  · have := projectsDrain_spec l l.length 0 (by omega)
    simpa [projectsIter] using this
  · intro fuel
    have := projectsDrain_spec l fuel l.length (by omega)
    simpa [projectsIter] using this
  · have := activityResourcesDrain_spec l l.length 0 (by omega)
    simpa [activityResourcesIter] using this
  · intro fuel
    have := activityResourcesDrain_spec l fuel l.length (by omega)
    simpa [activityResourcesIter] using this

end PyP6
